import Mathlib

/-!
# Verification of gtfs_to_png.py

A shallow embedding of the GTFS-to-PNG rendering script (src/gtfs_to_png.py)
together with proofs about its behaviour.

Modelling conventions:
* Geographic coordinates and the padding fraction are rationals (the script
  works with Python floats; none of the properties below depend on rounding).
* A pandas DataFrame column that may be absent is modelled by a Boolean flag
  on the table structure; a cell that may be NaN is modelled by an Option.
* Identifier columns are read with dtype=str in the script, hence String here.
* Fatal `SystemExit` errors are modelled with `Except String`.
-/

namespace GtfsToPng

/-- One raw row of shapes.txt: columns shape_id, shape_pt_lat, shape_pt_lon,
shape_pt_sequence (the optional dist_traveled column is ignored by the script). -/
structure ShapeRow where
  shape_id : String
  shape_pt_lat : ℚ
  shape_pt_lon : ℚ
  shape_pt_sequence : Int
  deriving DecidableEq, Repr

/-- One record of the GeoDataFrame built by read_shapes: a shape identifier,
a LineString geometry as an ordered list of (lon, lat) points, and the optional
color column added later by enrich_colors_from_routes (NaN cells are `none`). -/
structure ShapeRec where
  shape_id : String
  geometry : List (ℚ × ℚ)
  color : Option String := none
  deriving DecidableEq, Repr

/-- The shapes GeoDataFrame. `hasColorCol` models whether the "color" column
exists (read_shapes produces a frame without it; enrich_colors_from_routes adds it). -/
structure ShapesGdf where
  hasColorCol : Bool := false
  shapes : List ShapeRec
  deriving DecidableEq, Repr

/-- Ordering used by df.sort_values(["shape_id", "shape_pt_sequence"]):
lexicographic on (shape_id, shape_pt_sequence), both ascending. -/
def rowLe (a b : ShapeRow) : Prop :=
  a.shape_id < b.shape_id ∨
    (a.shape_id = b.shape_id ∧ a.shape_pt_sequence ≤ b.shape_pt_sequence)

instance rowLe.decRel : DecidableRel rowLe := fun a b =>
  decidable_of_iff
    (a.shape_id < b.shape_id ∨
      (a.shape_id = b.shape_id ∧ a.shape_pt_sequence ≤ b.shape_pt_sequence))
    Iff.rfl

/-- df.sort_values(["shape_id", "shape_pt_sequence"]). -/
def sortRows (rows : List ShapeRow) : List ShapeRow :=
  List.insertionSort rowLe rows

/-- The columns read_shapes requires in shapes.txt. -/
def requiredShapeCols : List String :=
  ["shape_id", "shape_pt_lat", "shape_pt_lon", "shape_pt_sequence"]

/-- The coordinate list built for one groupby("shape_id") group:
zip(group.shape_pt_lon, group.shape_pt_lat) over the sorted rows of that group. -/
def shapeGroupCoords (rows : List ShapeRow) (sid : String) : List (ℚ × ℚ) :=
  ((sortRows rows).filter (fun r => r.shape_id == sid)).map
    (fun r => (r.shape_pt_lon, r.shape_pt_lat))

/-- The loop over df.groupby("shape_id") in read_shapes: one LineString per
distinct shape_id (groupby iterates keys in sorted order, which dedup of the
sorted id column realises), skipping groups with fewer than 2 points. -/
def buildShapes (rows : List ShapeRow) : List ShapeRec :=
  (((sortRows rows).map (·.shape_id)).dedup).filterMap (fun sid =>
    if (shapeGroupCoords rows sid).length < 2 then none
    else some { shape_id := sid, geometry := shapeGroupCoords rows sid })

/-- read_shapes: raises SystemExit when a required column is missing, otherwise
groups and sorts the rows into LineStrings. `columns` is the header of the CSV. -/
def read_shapes (columns : List String) (rows : List ShapeRow) :
    Except String ShapesGdf :=
  if requiredShapeCols.all (fun c => columns.contains c) then
    Except.ok { hasColorCol := false, shapes := buildShapes rows }
  else
    Except.error "shapes.txt missing columns"

/-- One fold step of gdf.total_bounds: accumulate (minx, miny, maxx, maxy). -/
def boundsStep (acc : ℚ × ℚ × ℚ × ℚ) (p : ℚ × ℚ) : ℚ × ℚ × ℚ × ℚ :=
  (min acc.1 p.1, min acc.2.1 p.2, max acc.2.2.1 p.1, max acc.2.2.2 p.2)

/-- gdf.total_bounds as a fold over all coordinates; an empty geometry set
yields NaN bounds in geopandas, modelled here as `none`. -/
def total_bounds : List (ℚ × ℚ) → Option (ℚ × ℚ × ℚ × ℚ)
  | [] => none
  | p :: rest => some (rest.foldl boundsStep (p.1, p.2, p.1, p.2))

/-- All coordinates of all geometries in the frame. -/
def allPoints (gdf : ShapesGdf) : List (ℚ × ℚ) :=
  gdf.shapes.flatMap (·.geometry)

/-- compute_bbox: take total_bounds, replace a zero dx/dy by 0.001 (the
replacement feeds only the padding computation), pad each side by
span × padding_fraction, return (minx−padx, miny−pady, maxx+padx, maxy+pady). -/
def compute_bbox (gdf : ShapesGdf) (padding_fraction : ℚ := 1/50) :
    Option (ℚ × ℚ × ℚ × ℚ) :=
  match total_bounds (allPoints gdf) with
  | none => none
  | some (minx, miny, maxx, maxy) =>
    let dx := maxx - minx
    let dy := maxy - miny
    let dx := if dx = 0 then 1/1000 else dx
    let dy := if dy = 0 then 1/1000 else dy
    let padx := dx * padding_fraction
    let pady := dy * padding_fraction
    some (minx - padx, miny - pady, maxx + padx, maxy + pady)

/-- One row of trips.txt. The script reads trip_id/route_id/shape_id as str;
direction_id cells, when the column exists, are compared with the integer
--direction value (a NaN cell, modelled `none`, never equals it). -/
structure Trip where
  route_id : String
  shape_id : String
  direction_id : Option Int := none
  deriving DecidableEq, Repr

/-- The trips DataFrame. The flags model which optional columns exist; the
script only ever tests for "direction_id" (in the filter) and for
"shape_id"/"route_id" (in the color enricher). -/
structure TripsDf where
  rows : List Trip
  hasDirectionId : Bool := false
  hasShapeId : Bool := true
  hasRouteId : Bool := true
  deriving DecidableEq, Repr

/-- One row of routes.txt; route_color cells may be NaN. -/
structure RouteRow where
  route_id : String
  route_color : Option String := none
  deriving DecidableEq, Repr

/-- The routes DataFrame, with flags for the columns the enricher tests. -/
structure RoutesDf where
  rows : List RouteRow
  hasRouteId : Bool := true
  hasRouteColor : Bool := false
  deriving DecidableEq, Repr

/-- filter_shapes_by_route: returns the input when trips or route_ids is None,
otherwise keeps the shapes whose shape_id occurs in a trip of a listed route.
(The Python isinstance(route_ids, str) wrapping of a bare string into a
singleton list is a calling convenience; route identifier lists are modelled
directly.) -/
def filter_shapes_by_route (shapes_gdf : ShapesGdf) (trips_df : Option TripsDf)
    (route_ids : Option (List String)) : ShapesGdf :=
  match trips_df, route_ids with
  | none, _ => shapes_gdf
  | _, none => shapes_gdf
  | some trips, some rids =>
    let shape_ids :=
      ((trips.rows.filter (fun (t : Trip) => rids.contains t.route_id)).map
        (·.shape_id)).dedup
    { shapes_gdf with
      shapes := shapes_gdf.shapes.filter
        (fun (s : ShapeRec) => shape_ids.contains s.shape_id) }

/-- filter_shapes_by_route_and_direction: like filter_shapes_by_route, but when
a direction is given and the trips frame has a direction_id column, the
route-filtered trips are further restricted to that direction first. -/
def filter_shapes_by_route_and_direction (shapes_gdf : ShapesGdf)
    (trips_df : Option TripsDf) (route_ids : Option (List String))
    (direction : Option Int := none) : ShapesGdf :=
  match trips_df, route_ids with
  | none, _ => shapes_gdf
  | _, none => shapes_gdf
  | some trips, some rids =>
    let trips_filtered : List Trip :=
      trips.rows.filter (fun (t : Trip) => rids.contains t.route_id)
    let trips_filtered : List Trip :=
      match direction with
      | some d =>
        if trips.hasDirectionId then
          trips_filtered.filter (fun (t : Trip) => t.direction_id == some d)
        else trips_filtered
      | none => trips_filtered
    let shape_ids := (trips_filtered.map (·.shape_id)).dedup
    { shapes_gdf with
      shapes := shapes_gdf.shapes.filter
        (fun (s : ShapeRec) => shape_ids.contains s.shape_id) }

/-- Python dict(pairs), queried by key: the LAST pair with the key wins. -/
def dictLookup (pairs : List (String × String)) (k : String) : Option String :=
  ((pairs.filter (fun kv => kv.1 == k)).getLast?).map (·.2)

/-- enrich_colors_from_routes: returns the input unchanged when trips or routes
is None or a join column is missing; otherwise deduplicates (shape_id,
route_id) and (route_id, route_color) pairs, left-joins them on route_id,
drops NaN colors, builds a shape_id→color dict, copies the frame and writes a
fresh "color" column (replacing any existing one) via that dict. -/
def enrich_colors_from_routes (shapes_gdf : ShapesGdf) (trips_df : Option TripsDf)
    (routes_df : Option RoutesDf) : ShapesGdf :=
  match trips_df, routes_df with
  | none, _ => shapes_gdf
  | _, none => shapes_gdf
  | some trips, some routes =>
    if trips.hasShapeId && trips.hasRouteId then
      if routes.hasRouteId then
        if routes.hasRouteColor then
          let trip_route := (trips.rows.map (fun t => (t.shape_id, t.route_id))).dedup
          let route_color :=
            (routes.rows.map (fun r => (r.route_id, r.route_color))).dedup
          let merged := trip_route.flatMap (fun sr =>
            let ms := route_color.filter (fun rc => rc.1 == sr.2)
            if ms.isEmpty then [(sr.1, (none : Option String))]
            else ms.map (fun rc => (sr.1, rc.2)))
          let pairs := merged.filterMap (fun m =>
            match m.2 with
            | some c => some (m.1, c)
            | none => none)
          { hasColorCol := true,
            shapes := shapes_gdf.shapes.map
              (fun s => { s with color := dictLookup pairs s.shape_id }) }
        else shapes_gdf
      else shapes_gdf
    else shapes_gdf

/-- A call to GeoSeries.plot / GeoDataFrame.plot issued while drawing shapes in
plot_to_png. `colorArg` records the color keyword passed to the call; `none`
means no color keyword was passed, so matplotlib falls back to its default
styling. -/
inductive PlotCall where
  | perShape (geometry : List (ℚ × ℚ)) (colorArg : Option String)
  | collection (geometries : List (List (ℚ × ℚ))) (colorArg : Option String)
  deriving DecidableEq, Repr

/-- The shape-drawing section of plot_to_png (the iterrows loop and the
collection plot). When a "color" column exists, each row is drawn by its own
plot call; the source computes c = row color with a "#000000" NaN fallback,
but the plot call it issues passes no color keyword at all, and the
route_color_map parameter (fed from --color) is never read, so every call
carries colorArg = none. -/
def plotShapeCalls (shapes_gdf : ShapesGdf) (route_color_map : Option String) :
    List PlotCall :=
  if shapes_gdf.hasColorCol then
    shapes_gdf.shapes.map (fun _row => PlotCall.perShape _row.geometry none)
  else
    [PlotCall.collection (shapes_gdf.shapes.map (·.geometry)) none]

/-- The command-line arguments relevant to the modelled pipeline, with the
argparse defaults. -/
structure Args where
  route_id : Option String := none
  route_ids : Option String := none
  direction : Option Int := none
  pad : ℚ := 1/50
  color : String := "#ff0000"
  deriving Repr

/-- Python truthiness of an optional string: None and "" are falsy. -/
def strTruthy : Option String → Bool
  | none => false
  | some s => !(s == "")

/-- Python str.split(","): segments between commas, keeping empty segments
(",," gives three empty strings, "" gives one). -/
def splitCommaAux : List Char → List (List Char)
  | [] => [[]]
  | c :: rest =>
    if c = ',' then [] :: splitCommaAux rest
    else
      match splitCommaAux rest with
      | [] => [[c]]
      | h :: t => (c :: h) :: t

def pySplitComma (s : String) : List String :=
  (splitCommaAux s.data).map String.mk

/-- The ASCII whitespace stripped by Python str.strip() (the model restricts
the identifiers to ASCII). -/
def pyIsSpace (c : Char) : Bool :=
  c == ' ' || c == '\t' || c == '\n' || c == '\r' || c == '\x0b' || c == '\x0c'

/-- Python str.strip(): drop leading and trailing whitespace. -/
def pyStrip (s : String) : String :=
  String.mk (((s.data.dropWhile pyIsSpace).reverse.dropWhile pyIsSpace).reverse)

/-- The --route_ids parsing in main: split on commas, strip each segment, keep
the non-blank ones. -/
def parseRouteIds (s : String) : List String :=
  ((pySplitComma s).map pyStrip).filter (fun r => !(r == ""))

/-- The route_filter computation in main: --route_id (when truthy) wins,
else --route_ids (when truthy) is parsed, else no filter. -/
def computeRouteFilter (route_id route_ids : Option String) :
    Option (List String) :=
  if strTruthy route_id then some [route_id.getD ""]
  else if strTruthy route_ids then some (parseRouteIds (route_ids.getD ""))
  else none

/-- Python truthiness of route_filter: None and the empty list are falsy. -/
def listTruthy : Option (List String) → Bool
  | none => false
  | some l => !l.isEmpty

/-- The observable output of a successful run of main: the plot calls issued
into the PNG, the bounding box passed to the renderer and to the metadata
emitter, the shape frame that was drawn, and the filtered_routes field of
overlay-metadata.json. -/
structure MainOutput where
  plot_calls : List PlotCall
  bbox_used : Option (ℚ × ℚ × ℚ × ℚ)
  shapes_drawn : ShapesGdf
  filtered_routes : Option (List String)
  deriving DecidableEq, Repr

/-- main, from reading shapes to assembling the outputs. A SystemExit (missing
shapes columns, or route filter requested without --trips) is Except.error and
produces no output file; stops drawing and the figure geometry are omitted as
no claim concerns them. -/
def mainCore (a : Args) (shapeCols : List String) (shapeRows : List ShapeRow)
    (trips_df : Option TripsDf) (routes_df : Option RoutesDf) :
    Except String MainOutput := do
  let shapes_gdf ← read_shapes shapeCols shapeRows
  let route_filter := computeRouteFilter a.route_id a.route_ids
  let shapes_gdf ←
    if listTruthy route_filter then
      match trips_df with
      | none => Except.error "Error: --trips required to filter by route_id"
      | some _ =>
        pure (filter_shapes_by_route_and_direction shapes_gdf trips_df
          route_filter a.direction)
    else pure shapes_gdf
  let shapes_gdf :=
    match routes_df, trips_df with
    | some _, some _ => enrich_colors_from_routes shapes_gdf trips_df routes_df
    | _, _ => shapes_gdf
  let bbox := compute_bbox shapes_gdf a.pad
  let calls := plotShapeCalls shapes_gdf (some a.color)
  pure { plot_calls := calls, bbox_used := bbox, shapes_drawn := shapes_gdf,
         filtered_routes := route_filter }

/-! ## Example data used by witnesses and counterexamples -/

/-- A frame with one diagonal two-point shape. -/
def exGdf : ShapesGdf :=
  { shapes := [{ shape_id := "1", geometry := [(0, 0), (1, 1)] }] }

/-- A frame whose only shape is a perfectly vertical segment: its extent has
zero width. -/
def vlineGdf : ShapesGdf :=
  { shapes := [{ shape_id := "v", geometry := [(0, 0), (0, 1)] }] }

/-! ## Bounding box lemmas -/

theorem foldl_boundsStep_le (l : List (ℚ × ℚ)) :
    ∀ acc : ℚ × ℚ × ℚ × ℚ, acc.1 ≤ acc.2.2.1 → acc.2.1 ≤ acc.2.2.2 →
      (l.foldl boundsStep acc).1 ≤ (l.foldl boundsStep acc).2.2.1 ∧
        (l.foldl boundsStep acc).2.1 ≤ (l.foldl boundsStep acc).2.2.2 := by
  induction l with
  | nil => exact fun _ h1 h2 => ⟨h1, h2⟩
  | cons p t ih =>
    intro acc h1 h2
    refine ih (boundsStep acc p) ?_ ?_
    · simpa only [boundsStep] using
        le_trans (min_le_left _ _) (le_trans h1 (le_max_left _ _))
    · simpa only [boundsStep] using
        le_trans (min_le_left _ _) (le_trans h2 (le_max_left _ _))

theorem total_bounds_isSome (pts : List (ℚ × ℚ)) (h : pts ≠ []) :
    ∃ mnx mny mxx mxy, total_bounds pts = some (mnx, mny, mxx, mxy) := by
  match pts with
  | [] => exact absurd rfl h
  | p :: rest =>
    refine ⟨(rest.foldl boundsStep (p.1, p.2, p.1, p.2)).1,
      (rest.foldl boundsStep (p.1, p.2, p.1, p.2)).2.1,
      (rest.foldl boundsStep (p.1, p.2, p.1, p.2)).2.2.1,
      (rest.foldl boundsStep (p.1, p.2, p.1, p.2)).2.2.2, ?_⟩
    simp [total_bounds]

theorem total_bounds_le (pts : List (ℚ × ℚ)) (mnx mny mxx mxy : ℚ)
    (h : total_bounds pts = some (mnx, mny, mxx, mxy)) : mnx ≤ mxx ∧ mny ≤ mxy := by
  match pts, h with
  | p :: rest, h =>
    simp only [total_bounds, Option.some.injEq] at h
    have hfold := foldl_boundsStep_le rest (p.1, p.2, p.1, p.2) le_rfl le_rfl
    rw [h] at hfold
    exact hfold

/-- Characterisation of compute_bbox when total_bounds is defined: the padding
on each axis is (degeneracy-corrected span) × padding_fraction, while the
extent corners themselves are the raw total_bounds corners. -/
theorem compute_bbox_eq (gdf : ShapesGdf) (pf mnx mny mxx mxy : ℚ)
    (h : total_bounds (allPoints gdf) = some (mnx, mny, mxx, mxy)) :
    compute_bbox gdf pf = some
      (mnx - (if mxx - mnx = 0 then 1/1000 else mxx - mnx) * pf,
       mny - (if mxy - mny = 0 then 1/1000 else mxy - mny) * pf,
       mxx + (if mxx - mnx = 0 then 1/1000 else mxx - mnx) * pf,
       mxy + (if mxy - mny = 0 then 1/1000 else mxy - mny) * pf) := by
  unfold compute_bbox
  rw [h]

/-! ## Claims about compute_bbox (C1, C4) -/

/-- C4: for every non-empty geometry collection and every non-negative padding
fraction, compute_bbox returns a box with max-lon ≥ min-lon and
max-lat ≥ min-lat. -/
theorem C4_bbox_max_ge_min (gdf : ShapesGdf) (pf : ℚ)
    (hne : allPoints gdf ≠ []) (hpf : 0 ≤ pf) :
    ∃ b1 b2 b3 b4, compute_bbox gdf pf = some (b1, b2, b3, b4) ∧
      b1 ≤ b3 ∧ b2 ≤ b4 := by
  obtain ⟨mnx, mny, mxx, mxy, h⟩ := total_bounds_isSome _ hne
  obtain ⟨hx, hy⟩ := total_bounds_le _ _ _ _ _ h
  refine ⟨_, _, _, _, compute_bbox_eq gdf pf mnx mny mxx mxy h, ?_, ?_⟩
  · have he : 0 ≤ (if mxx - mnx = 0 then (1/1000 : ℚ) else mxx - mnx) := by
      split
      · norm_num
      · linarith
    have := mul_nonneg he hpf
    linarith
  · have he : 0 ≤ (if mxy - mny = 0 then (1/1000 : ℚ) else mxy - mny) := by
      split
      · norm_num
      · linarith
    have := mul_nonneg he hpf
    linarith

theorem C4_witness :
    allPoints exGdf ≠ [] ∧ (0 : ℚ) ≤ 1/50 ∧
      (∃ b1 b2 b3 b4, compute_bbox exGdf (1/50) = some (b1, b2, b3, b4) ∧
        b1 ≤ b3 ∧ b2 ≤ b4) :=
  ⟨by decide, by norm_num, C4_bbox_max_ge_min exGdf (1/50) (by decide) (by norm_num)⟩

/-- C1 counterexample: on a zero-width extent compute_bbox does NOT expand the
extent to a 0.001-degree span before padding. For the vertical segment
(0,0)–(0,1) with the default padding fraction 0.02, the returned box is only
2 × 0.02 × 0.001 = 0.00004 degrees wide — even the padded span is below the
claimed 0.001-degree pre-padding minimum (and the pre-padding span is 0). -/
theorem C1_counterexample :
    compute_bbox vlineGdf (1/50) = some (-(1/50000), -(1/50), 1/50000, 51/50) ∧
      (1/50000 : ℚ) - -(1/50000) < 1/1000 := by
  constructor
  · norm_num [compute_bbox, total_bounds, allPoints, vlineGdf, boundsStep,
      min_def, max_def]
  · norm_num

/-- C1 amended: the 0.001-degree minimum applies only to the span value used to
compute the padding amount; the extent itself is never widened. On an axis
whose raw extent is degenerate the returned box's span is exactly
2 × padding_fraction × 0.001, and on the other axis the returned span is the
raw span plus 2 × padding_fraction × (degeneracy-corrected span). -/
theorem C1_degenerate_axis_span (gdf : ShapesGdf) (pf mnx mny mxx mxy : ℚ)
    (h : total_bounds (allPoints gdf) = some (mnx, mny, mxx, mxy))
    (hdeg : mxx = mnx) :
    ∃ b1 b2 b3 b4, compute_bbox gdf pf = some (b1, b2, b3, b4) ∧
      b3 - b1 = 2 * pf * (1/1000) ∧
      b4 - b2 = (mxy - mny) +
        2 * pf * (if mxy - mny = 0 then 1/1000 else mxy - mny) := by
  refine ⟨_, _, _, _, compute_bbox_eq gdf pf mnx mny mxx mxy h, ?_, ?_⟩
  · rw [hdeg, sub_self, if_pos rfl]
    ring
  · ring

theorem C1_degenerate_axis_span_witness :
    total_bounds (allPoints vlineGdf) = some (0, 0, 0, 1) ∧ (0 : ℚ) = 0 ∧
      (∃ b1 b2 b3 b4, compute_bbox vlineGdf (1/50) = some (b1, b2, b3, b4) ∧
        b3 - b1 = 2 * (1/50) * (1/1000) ∧
        b4 - b2 = ((1 : ℚ) - 0) +
          2 * (1/50) * (if (1 : ℚ) - 0 = 0 then 1/1000 else 1 - 0)) :=
  ⟨by norm_num [total_bounds, allPoints, vlineGdf, boundsStep, min_def, max_def],
    rfl,
    C1_degenerate_axis_span vlineGdf (1/50) 0 0 0 1
      (by norm_num [total_bounds, allPoints, vlineGdf, boundsStep, min_def,
        max_def]) rfl⟩

/-! ## read_shapes lemmas and C5 -/

/-- Sorting does not change how many rows a shape_id group has. -/
theorem shapeGroupCoords_length (rows : List ShapeRow) (sid : String) :
    (shapeGroupCoords rows sid).length =
      (rows.filter (fun r => r.shape_id == sid)).length := by
  unfold shapeGroupCoords sortRows
  rw [List.length_map]
  exact ((List.perm_insertionSort rowLe rows).filter _).length_eq

/-- Every record produced by buildShapes comes from a group of at least two
rows and carries that group's coordinates. -/
theorem buildShapes_mem (rows : List ShapeRow) (s : ShapeRec)
    (hs : s ∈ buildShapes rows) :
    2 ≤ s.geometry.length ∧ s.geometry = shapeGroupCoords rows s.shape_id := by
  unfold buildShapes at hs
  rw [List.mem_filterMap] at hs
  obtain ⟨sid, _, hf⟩ := hs
  by_cases h : (shapeGroupCoords rows sid).length < 2
  · rw [if_pos h] at hf
    exact absurd hf (Option.noConfusion)
  · rw [if_neg h] at hf
    injection hf with hf
    subst hf
    exact ⟨not_lt.mp h, rfl⟩

/-- C5: when the required shapes.txt columns are present, read_shapes succeeds
(never raises), every produced shape has at least 2 points, and any shape_id
whose group of input rows has fewer than 2 points is absent from the output. -/
theorem C5_short_groups_dropped (cols : List String) (rows : List ShapeRow)
    (hcols : requiredShapeCols.all (fun c => cols.contains c) = true) :
    ∃ gdf, read_shapes cols rows = Except.ok gdf ∧
      (∀ s ∈ gdf.shapes, 2 ≤ s.geometry.length) ∧
      (∀ sid : String,
        (rows.filter (fun r => r.shape_id == sid)).length < 2 →
          ∀ s ∈ gdf.shapes, s.shape_id ≠ sid) := by
  refine ⟨{ hasColorCol := false, shapes := buildShapes rows }, ?_, ?_, ?_⟩
  · unfold read_shapes
    rw [if_pos hcols]
  · intro s hs
    exact (buildShapes_mem rows s hs).1
  · intro sid hshort s hs hid
    obtain ⟨hlen, hgeom⟩ := buildShapes_mem rows s hs
    rw [hgeom, hid, shapeGroupCoords_length] at hlen
    omega

/-- Rows for the C5 witness: shape "1" has two points, shape "solo" only one. -/
def c5Rows : List ShapeRow :=
  [{ shape_id := "1", shape_pt_lat := 0, shape_pt_lon := 0, shape_pt_sequence := 1 },
   { shape_id := "1", shape_pt_lat := 1, shape_pt_lon := 1, shape_pt_sequence := 2 },
   { shape_id := "solo", shape_pt_lat := 5, shape_pt_lon := 5, shape_pt_sequence := 1 }]

theorem C5_witness :
    requiredShapeCols.all (fun c => requiredShapeCols.contains c) = true ∧
      (∃ gdf, read_shapes requiredShapeCols c5Rows = Except.ok gdf ∧
        (∀ s ∈ gdf.shapes, 2 ≤ s.geometry.length) ∧
        (∀ sid : String,
          (c5Rows.filter (fun r => r.shape_id == sid)).length < 2 →
            ∀ s ∈ gdf.shapes, s.shape_id ≠ sid)) :=
  ⟨by decide, C5_short_groups_dropped requiredShapeCols c5Rows (by decide)⟩

/-! ## Filtering claims (C6, C7, C8) -/

theorem filter_twice {α : Type} (p : α → Bool) (l : List α) :
    (l.filter p).filter p = l.filter p := by
  induction l with
  | nil => rfl
  | cons a tl ih =>
    cases hpa : p a with
    | false => simp [List.filter_cons, hpa, ih]
    | true => simp [List.filter_cons, hpa, ih]

/-- C7: with no route filter (route_ids = None) the filter is the identity,
whatever the trips frame and direction are. -/
theorem C7_no_route_filter_identity (shapes_gdf : ShapesGdf)
    (trips_df : Option TripsDf) (direction : Option Int) :
    filter_shapes_by_route_and_direction shapes_gdf trips_df none direction =
      shapes_gdf := by
  cases trips_df <;> rfl

/-- C6: filtering twice by the same trips, routes and direction gives the same
shape set as filtering once. -/
theorem C6_filter_idempotent (s : ShapesGdf) (t : Option TripsDf)
    (r : Option (List String)) (d : Option Int) :
    filter_shapes_by_route_and_direction
        (filter_shapes_by_route_and_direction s t r d) t r d =
      filter_shapes_by_route_and_direction s t r d := by
  match t, r with
  | none, none => rfl
  | none, some _ => rfl
  | some _, none => rfl
  | some trips, some rids =>
    simp only [filter_shapes_by_route_and_direction]
    exact congrArg (ShapesGdf.mk s.hasColorCol) (filter_twice _ s.shapes)

/-- C8: when the trips frame has no direction_id column, the direction
criterion is silently ignored: the combined filter coincides with the
route-only filter, for any requested direction. -/
theorem C8_direction_noop_without_column (s : ShapesGdf) (t : TripsDf)
    (rids : List String) (d : Option Int)
    (hnd : t.hasDirectionId = false) (hne : rids ≠ []) :
    filter_shapes_by_route_and_direction s (some t) (some rids) d =
      filter_shapes_by_route s (some t) (some rids) := by
  cases d with
  | none => rfl
  | some dv =>
    simp only [filter_shapes_by_route_and_direction, filter_shapes_by_route, hnd,
      Bool.false_eq_true, if_false]

/-- Trips for the C8 witness: no direction_id column; route "42" serves shape
"1", route "7" serves shape "2". -/
def c8Trips : TripsDf :=
  { rows := [{ route_id := "42", shape_id := "1" },
             { route_id := "7", shape_id := "2" }] }

/-- Shapes for the C8 witness. -/
def c8Gdf : ShapesGdf :=
  { shapes := [{ shape_id := "1", geometry := [(0, 0), (1, 1)] },
               { shape_id := "2", geometry := [(2, 2), (3, 3)] }] }

theorem C8_witness :
    c8Trips.hasDirectionId = false ∧ (["42"] : List String) ≠ [] ∧
      filter_shapes_by_route_and_direction c8Gdf (some c8Trips) (some ["42"])
          (some 0) =
        filter_shapes_by_route c8Gdf (some c8Trips) (some ["42"]) :=
  ⟨rfl, by decide,
    C8_direction_noop_without_column c8Gdf c8Trips ["42"] (some 0) rfl (by decide)⟩

/-! ## Color enrichment claim (C9) -/

/-- C9: enrich_colors_from_routes keeps exactly the same shapes — same count,
same identifiers, same geometries, in the same order — differing at most in
the color annotation. (The source copies the frame before writing the color
column, so the input frame itself is also left unmodified; in this pure
embedding that frame is the unchanged argument.) -/
theorem C9_enrich_preserves_shapes (s : ShapesGdf) (t : Option TripsDf)
    (r : Option RoutesDf) :
    (enrich_colors_from_routes s t r).shapes.map
        (fun x => (x.shape_id, x.geometry)) =
      s.shapes.map (fun x => (x.shape_id, x.geometry)) := by
  match t, r with
  | none, none => rfl
  | none, some _ => rfl
  | some _, none => rfl
  | some trips, some routes =>
    simp only [enrich_colors_from_routes]
    split
    · split
      · split
        · rw [List.map_map]
          rfl
        · rfl
      · rfl
    · rfl

/-! ## Renderer color claim (C2) -/

/-- A frame with the color column, whose single shape carries color "00FF00". -/
def coloredGdf : ShapesGdf :=
  { hasColorCol := true,
    shapes := [{ shape_id := "1", geometry := [(0, 0), (1, 1)],
                 color := some "00FF00" }] }

/-- A frame without the color column. -/
def plainGdf : ShapesGdf :=
  { shapes := [{ shape_id := "1", geometry := [(0, 0), (1, 1)] }] }

/-- C2: evaluation of the shape-drawing code at concrete inputs. Although the
source computes the per-shape color c (with a "#000000" NaN fallback) and
receives the --color value through route_color_map, it forwards NEITHER to any
plot call: every call is issued with no color keyword (colorArg = none), both
when the color column exists (here a shape explicitly colored "00FF00") and
when it does not (where the claim expects the "#ff0000" default). -/
theorem C2_color_arguments_never_forwarded :
    plotShapeCalls coloredGdf (some "#ff0000") =
        [PlotCall.perShape [(0, 0), (1, 1)] none] ∧
      plotShapeCalls plainGdf (some "#ff0000") =
        [PlotCall.collection [[(0, 0), (1, 1)]] none] :=
  ⟨rfl, rfl⟩

/-! ## Claims about main (C3, C10) -/

/-- Rows used by the witnesses of the main-pipeline claims. -/
def mainRows : List ShapeRow :=
  [{ shape_id := "1", shape_pt_lat := 0, shape_pt_lon := 0, shape_pt_sequence := 1 },
   { shape_id := "1", shape_pt_lat := 1, shape_pt_lon := 1, shape_pt_sequence := 2 }]

/-- C3: when a non-empty route filter was requested but no trips source is
supplied, main terminates with the fatal usage error, producing no output
(the Except.ok payload holding the PNG plot calls and the metadata is never
built). -/
theorem C3_route_filter_without_trips_fatal (a : Args) (cols : List String)
    (rows : List ShapeRow) (routes_df : Option RoutesDf) (rf : List String)
    (hcols : requiredShapeCols.all (fun c => cols.contains c) = true)
    (hrf : computeRouteFilter a.route_id a.route_ids = some rf)
    (hne : rf ≠ []) :
    mainCore a cols rows none routes_df =
      Except.error "Error: --trips required to filter by route_id" := by
  obtain ⟨x, xs, rfl⟩ := List.exists_cons_of_ne_nil hne
  unfold mainCore read_shapes
  rw [if_pos hcols, hrf]
  rfl

/-- Arguments for the C3 witness: a single --route_id, no --trips. -/
def c3Args : Args := { route_id := some "42" }

theorem C3_witness :
    requiredShapeCols.all (fun c => requiredShapeCols.contains c) = true ∧
      computeRouteFilter c3Args.route_id c3Args.route_ids = some ["42"] ∧
      (["42"] : List String) ≠ [] ∧
      mainCore c3Args requiredShapeCols mainRows none none =
        Except.error "Error: --trips required to filter by route_id" :=
  ⟨by decide, by decide, by decide,
    C3_route_filter_without_trips_fatal c3Args requiredShapeCols mainRows none
      ["42"] (by decide) (by decide) (by decide)⟩

/-- C10: a --route_ids value whose comma-separated segments are all blank
parses to the empty filter list, which is falsy: no trips source is required,
no error is raised, the shape set reaches the renderer unchanged, and the
metadata records filtered_routes = [] (not the absence marker None). -/
theorem C10_blank_route_ids_pass_through (a : Args) (cols : List String)
    (rows : List ShapeRow) (routes_df : Option RoutesDf) (s : String)
    (hrid : strTruthy a.route_id = false)
    (hrids : a.route_ids = some s) (hs : s ≠ "")
    (hparse : parseRouteIds s = [])
    (hcols : requiredShapeCols.all (fun c => cols.contains c) = true) :
    ∃ gdf, read_shapes cols rows = Except.ok gdf ∧
      mainCore a cols rows none routes_df = Except.ok
        { plot_calls := plotShapeCalls gdf (some a.color),
          bbox_used := compute_bbox gdf a.pad,
          shapes_drawn := gdf,
          filtered_routes := some [] } := by
  have hcf : computeRouteFilter a.route_id a.route_ids = some [] := by
    unfold computeRouteFilter
    rw [hrid]
    simp [strTruthy, hrids, hs, hparse]
  refine ⟨{ hasColorCol := false, shapes := buildShapes rows }, ?_, ?_⟩
  · unfold read_shapes
    rw [if_pos hcols]
  · unfold mainCore read_shapes
    rw [if_pos hcols, hcf]
    cases routes_df <;> rfl

/-- Arguments for the C10 witness: --route_ids ",," and nothing else. -/
def c10Args : Args := { route_ids := some ",," }

theorem C10_witness :
    strTruthy c10Args.route_id = false ∧ c10Args.route_ids = some ",," ∧
      (",," : String) ≠ "" ∧ parseRouteIds ",," = [] ∧
      requiredShapeCols.all (fun c => requiredShapeCols.contains c) = true ∧
      (∃ gdf, read_shapes requiredShapeCols mainRows = Except.ok gdf ∧
        mainCore c10Args requiredShapeCols mainRows none none = Except.ok
          { plot_calls := plotShapeCalls gdf (some c10Args.color),
            bbox_used := compute_bbox gdf c10Args.pad,
            shapes_drawn := gdf,
            filtered_routes := some [] }) :=
  ⟨rfl, rfl, by decide, by decide, by decide,
    C10_blank_route_ids_pass_through c10Args requiredShapeCols mainRows none ",,"
      rfl rfl (by decide) (by decide) (by decide)⟩

end GtfsToPng
